import Mathlib

/-
Shallow embedding of src/src/gui_menu.cpp (GuiMenu, pie_noon).

The menu core owns an ordered list of touchscreen buttons, an ordered list
of static images, a single current-focus identity and a FIFO queue of
pending selection events.  External collaborators (TouchscreenButton,
StaticImage, MaterialManager, the platform query TouchScreenDevice and the
generated flatbuffers types) are not under src/, so their observable
surface is modelled from the spec where noted; the control flow of
gui_menu.cpp itself is translated line by line.
-/

namespace GuiMenuModel

/-- Identity tokens for widgets, images and the three sentinels.  The C++
enum ButtonId (generated, not under src/) is modelled from the spec: the
sentinels Undefined, InvalidInput and Cancel never collide with real
widget identities, which are carried by the `wid` constructor. -/
inductive ButtonId where
  | Undefined : ButtonId
  | InvalidInput : ButtonId
  | Cancel : ButtonId
  | wid : Nat → ButtonId
deriving DecidableEq

/-- Controller identities.  Modelled from the spec: the input-source tag
distinguishes the pointer/touch pseudo-controller and the undefined
sentinel from real numbered controllers. -/
inductive ControllerId where
  | kTouchController : ControllerId
  | kUndefinedController : ControllerId
  | controller : Nat → ControllerId
deriving DecidableEq

/-- One queued selection event: MenuSelection(button_id, controller_id). -/
structure MenuSelection where
  button_id : ButtonId
  controller_id : ControllerId
deriving DecidableEq

/-- Opaque handle to a loaded material (pointer in the C++; `none` models
the null pointer returned by a failed resolution). -/
abbrev Material := Nat

/-- Opaque handle to a loaded shader. -/
abbrev Shader := Nat

/-- ButtonTexture (generated flatbuffers table, not under src/).  Modelled
from the spec: a texture-variant set with a required standard name and an
optional touch-screen name. -/
structure ButtonTexture where
  standard : String
  touch_screen : Option String
deriving DecidableEq

/-- ButtonDef (generated flatbuffers table, not under src/).  Modelled from
the spec: identity, activation-at-start flag, per-direction ordered
neighbor-identity lists (each possibly absent), normal/pressed texture
variants and optional shader overrides. -/
structure ButtonDef where
  id : ButtonId
  starts_active : Bool
  texture_normal : Option (List ButtonTexture)
  texture_pressed : Option ButtonTexture
  shader : Option String
  inactive_shader : Option String
  nav_up : Option (List ButtonId)
  nav_down : Option (List ButtonId)
  nav_left : Option (List ButtonId)
  nav_right : Option (List ButtonId)
deriving DecidableEq

/-- StaticImageDef (generated flatbuffers table, not under src/).  Modelled
from the spec: identity, texture-variant set, optional shader override and
the render-after-buttons flag. -/
structure StaticImageDef where
  id : ButtonId
  texture : List ButtonTexture
  shader : Option String
  render_after_buttons : Bool
deriving DecidableEq

/-- UiGroup (generated flatbuffers table, not under src/).  Modelled from
the spec: canonical window height, starting focus identity, menu-wide
default shader names, and the ordered (possibly absent) button and
static-image definition lists. -/
structure UiGroup where
  cannonical_window_height : Nat
  starting_selection : ButtonId
  default_shader : String
  default_inactive_shader : String
  button_list : Option (List ButtonDef)
  static_image_list : Option (List StaticImageDef)
deriving DecidableEq

/-- TouchscreenButton (collaborator declared outside src/).  Modelled from
the spec: one interactive control exposing an identity, an activation
flag, a visibility flag, a highlight flag, a just-triggered query, its
static definition for direction lookups, and the resolved visuals. -/
structure TouchscreenButton where
  id : ButtonId
  is_active : Bool
  is_visible : Bool
  is_highlighted : Bool
  triggered : Bool
  button_def : ButtonDef
  up_materials : List (Option Material)
  down_material : Option Material
  shader : Option Shader
  inactive_shader : Option Shader
  cannonical_window_height : Nat
deriving DecidableEq

/-- IsTriggered: the widget-reported just-activated edge query. -/
def TouchscreenButton.IsTriggered (b : TouchscreenButton) : Bool :=
  b.triggered

/-- GetId of a touchscreen button. -/
def TouchscreenButton.GetId (b : TouchscreenButton) : ButtonId :=
  b.id

/-- StaticImage (collaborator declared outside src/).  Modelled from the
spec: a decorative element holding its definition, resolved materials and
shader, and the canonical height; the image-construction call made by
Setup fills exactly these fields. -/
structure StaticImage where
  image_def : StaticImageDef
  materials : List (Option Material)
  shader : Option Shader
  cannonical_window_height : Nat
deriving DecidableEq

/-- GetId of a static image. -/
def StaticImage.GetId (s : StaticImage) : ButtonId :=
  s.image_def.id

/-- MaterialManager (collaborator declared outside src/).  Modelled from
the spec interface: FindMaterial and FindShader return a handle or null. -/
structure MaterialManager where
  find_material : String → Option Material
  find_shader : String → Option Shader

/-- One observable call on the asset-resolution collaborator during Setup. -/
inductive MatmanCall where
  | findMaterial : String → MatmanCall
  | findShader : String → MatmanCall
deriving DecidableEq

/-- State of one GuiMenu instance: the widget collection, the image
collection, the current focus and the pending FIFO queue
(unhandled_selections_, head of the list is the front of the queue). -/
structure GuiMenuState where
  button_list : List TouchscreenButton
  image_list : List StaticImage
  current_focus : ButtonId
  unhandled_selections : List MenuSelection
  menu_def : Option UiGroup
deriving DecidableEq

/-- TextureName (gui_menu.cpp lines 26-31): choose the touch-screen
variant when it exists and the platform is a touch-screen device, else the
standard variant.  The platform query TouchScreenDevice (not under src/)
is modelled from the spec as a capability flag passed in. -/
def TextureName (touch_screen_device : Bool) (bt : ButtonTexture) : String :=
  if bt.touch_screen.isSome && touch_screen_device then
    bt.touch_screen.getD bt.standard
  else
    bt.standard

/-- ClearRecentSelections (lines 193-195): swap the queue with a fresh one. -/
def ClearRecentSelections (g : GuiMenuState) : GuiMenuState :=
  { g with unhandled_selections := [] }

/-- FindButtonById (lines 177-182): linear scan for the first button whose
GetId matches; null when none does. -/
def FindButtonById (g : GuiMenuState) (id : ButtonId) : Option TouchscreenButton :=
  g.button_list.find? (fun b => b.GetId == id)

/-- FindImageById (lines 185-190): linear scan of the image list. -/
def FindImageById (g : GuiMenuState) (id : ButtonId) : Option StaticImage :=
  g.image_list.find? (fun s => s.GetId == id)

/-- GetFocus (line 277). -/
def GetFocus (g : GuiMenuState) : ButtonId :=
  g.current_focus

/-- SetFocus (line 279): plain assignment of the focus member. -/
def SetFocus (g : GuiMenuState) (new_focus : ButtonId) : GuiMenuState :=
  { g with current_focus := new_focus }

/-- GetRecentSelection (lines 197-205): on an empty queue return the
(Undefined, kUndefinedController) sentinel and leave the state alone;
otherwise pop and return the front element. -/
def GetRecentSelection (g : GuiMenuState) : MenuSelection × GuiMenuState :=
  match g.unhandled_selections with
  | [] => (⟨ButtonId.Undefined, ControllerId.kUndefinedController⟩, g)
  | e :: rest => (e, { g with unhandled_selections := rest })

/-- Push one selection event at the back of the FIFO queue
(unhandled_selections_.push in the C++). -/
def pushSelection (g : GuiMenuState) (e : MenuSelection) : GuiMenuState :=
  { g with unhandled_selections := g.unhandled_selections ++ [e] }

/-- Loop body of UpdateFocus (lines 262-269): scan the destination list in
order; the first candidate that FindButtonById resolves and whose
is_visible flag is set receives focus and the scan stops; if the scan
falls through, the navigation-failure event is pushed (lines 273-274). -/
def UpdateFocusLoop (g : GuiMenuState) : List ButtonId → GuiMenuState
  | [] =>
      pushSelection g ⟨ButtonId.InvalidInput, ControllerId.kTouchController⟩
  | destination_id :: rest =>
      match FindButtonById g destination_id with
      | some destination =>
          if destination.is_visible then SetFocus g destination_id
          else UpdateFocusLoop g rest
      | none => UpdateFocusLoop g rest

/-- UpdateFocus (lines 258-275): a null destination list skips the scan
and goes straight to the failure push. -/
def UpdateFocus (g : GuiMenuState) : Option (List ButtonId) → GuiMenuState
  | some destination_list => UpdateFocusLoop g destination_list
  | none =>
      pushSelection g ⟨ButtonId.InvalidInput, ControllerId.kTouchController⟩

/-- Logical input bits tested by HandleControllerInput.  The C++ takes a
uint32 bitmask whose LogicalInputs bit constants are generated outside
src/; modelled from the spec as the six tested signals. -/
structure LogicalInputs where
  up : Bool
  down : Bool
  left : Bool
  right : Bool
  select : Bool
  cancel : Bool
deriving DecidableEq

/-- HandleControllerInput (lines 223-253): resolve the focused button; if
none, silently return.  Otherwise handle the four direction bits via
UpdateFocus on the focused definition, then the select bit (pushing the
current focus after any navigation, active-checked on the button resolved
at entry) and the cancel bit, in that order. -/
def HandleControllerInput (g : GuiMenuState) (logical_input : LogicalInputs)
    (controller_id : ControllerId) : GuiMenuState :=
  match FindButtonById g g.current_focus with
  | none => g
  | some current_focus_button =>
      let current_def := current_focus_button.button_def
      let g1 := if logical_input.up then UpdateFocus g current_def.nav_up else g
      let g2 := if logical_input.down then UpdateFocus g1 current_def.nav_down else g1
      let g3 := if logical_input.left then UpdateFocus g2 current_def.nav_left else g2
      let g4 := if logical_input.right then UpdateFocus g3 current_def.nav_right else g3
      let g5 := if logical_input.select then
          pushSelection g4 ⟨if current_focus_button.is_active then g4.current_focus
                            else ButtonId.InvalidInput, controller_id⟩
        else g4
      if logical_input.cancel then
        pushSelection g5 ⟨ButtonId.Cancel, controller_id⟩
      else g5

/-- Per-frame advance of one widget (collaborator behaviour, not under
src/).  Modelled from the spec: the internal animation/touch update
against the input collaborator is abstracted by the per-widget trigger
outcome reported for this frame. -/
def advanceButton (trig : Bool) (b : TouchscreenButton) : TouchscreenButton :=
  { b with triggered := trig }

/-- Loop body of AdvanceFrame (lines 162-173): advance each button, derive
its highlight from the current focus, and push one touch-source event for
each triggered button, identity per its activation flag.  Returns the
updated collection and the pushed events in collection order.  The trigger
oracle is indexed by collection position. -/
def AdvanceFrameLoop (focus : ButtonId) (trig : Nat → Bool) :
    Nat → List TouchscreenButton → List TouchscreenButton × List MenuSelection
  | _, [] => ([], [])
  | i, b :: rest =>
      let b1 := advanceButton (trig i) b
      let b2 := { b1 with is_highlighted := focus == b1.GetId }
      let evs :=
        if b2.IsTriggered then
          [⟨if b2.is_active then b2.GetId else ButtonId.InvalidInput,
            ControllerId.kTouchController⟩]
        else []
      let tail := AdvanceFrameLoop focus trig (i + 1) rest
      (b2 :: tail.1, evs ++ tail.2)

/-- AdvanceFrame (lines 158-174): clear the queue unconditionally, then
run the per-button loop, which repopulates the queue. -/
def AdvanceFrame (g : GuiMenuState) (trig : Nat → Bool) : GuiMenuState :=
  let g0 := ClearRecentSelections g
  let r := AdvanceFrameLoop g0.current_focus trig 0 g0.button_list
  { g0 with button_list := r.1, unhandled_selections := g0.unhandled_selections ++ r.2 }

/-- Widget construction for one declared button (Setup lines 55-90),
paired with the collaborator calls it makes in order: FindMaterial for
each normal texture, FindMaterial for the optional pressed texture, then
FindShader for the shader and the inactive shader (falling back to the
menu-wide defaults).  The widget is constructed even when every resolution
returns null.  GetId and the initial visibility of a freshly constructed
TouchscreenButton live outside src/ and are modelled from the spec: the
widget exposes the identity of its definition, and a new widget is
visible. -/
def setupButton (menu_def : UiGroup) (matman : MaterialManager)
    (touch_screen_device : Bool) (button : ButtonDef) :
    TouchscreenButton × List MatmanCall :=
  let normals := button.texture_normal.getD []
  let normal_names := normals.map (TextureName touch_screen_device)
  let pressed_names :=
    match button.texture_pressed with
    | some t => [TextureName touch_screen_device t]
    | none => []
  let shader_name := (button.shader.getD menu_def.default_shader)
  let inactive_shader_name :=
    (button.inactive_shader.getD menu_def.default_inactive_shader)
  (⟨button.id,
    button.starts_active,
    true,
    true,
    false,
    button,
    normal_names.map matman.find_material,
    (pressed_names.map matman.find_material).head?.join,
    matman.find_shader shader_name,
    matman.find_shader inactive_shader_name,
    menu_def.cannonical_window_height⟩,
   normal_names.map MatmanCall.findMaterial
     ++ pressed_names.map MatmanCall.findMaterial
     ++ [MatmanCall.findShader shader_name,
         MatmanCall.findShader inactive_shader_name])

/-- Image construction for one declared static image (Setup lines 93-117),
paired with the collaborator calls it makes: FindMaterial per texture,
then FindShader (with the menu-wide default fallback).  Failed resolutions
are logged in the C++ but the image is constructed regardless. -/
def setupImage (menu_def : UiGroup) (matman : MaterialManager)
    (touch_screen_device : Bool) (image_def : StaticImageDef) :
    StaticImage × List MatmanCall :=
  let names := image_def.texture.map (TextureName touch_screen_device)
  let shader_name := (image_def.shader.getD menu_def.default_shader)
  (⟨image_def,
    names.map matman.find_material,
    matman.find_shader shader_name,
    menu_def.cannonical_window_height⟩,
   names.map MatmanCall.findMaterial ++ [MatmanCall.findShader shader_name])

/-- Setup (lines 38-118): clear the queue; a null definition empties both
collections and resets the focus to the Undefined sentinel without any
collaborator call; a non-null definition rebuilds both collections slot
per declared slot and sets the focus to the declared starting selection.
The second component is the trace of asset-resolution calls made.  The
assert on cannonical_window_height is a diagnostic, not control flow. -/
def Setup (g : GuiMenuState) (menu_def : Option UiGroup)
    (matman : MaterialManager) (touch_screen_device : Bool) :
    GuiMenuState × List MatmanCall :=
  let g0 := ClearRecentSelections g
  match menu_def with
  | none =>
      ({ g0 with button_list := [], image_list := [],
                 current_focus := ButtonId.Undefined }, [])
  | some md =>
      let bres := (md.button_list.getD []).map
        (setupButton md matman touch_screen_device)
      let ires := (md.static_image_list.getD []).map
        (setupImage md matman touch_screen_device)
      ({ g0 with menu_def := some md,
                 button_list := bres.map Prod.fst,
                 image_list := ires.map Prod.fst,
                 current_focus := md.starting_selection },
       (bres.map Prod.snd).flatten ++ (ires.map Prod.snd).flatten)

/-- Drain the queue n times by repeated GetRecentSelection, collecting the
returned events. -/
def DrainSelections (g : GuiMenuState) : Nat → List MenuSelection
  | 0 => []
  | n + 1 =>
      let r := GetRecentSelection g
      r.1 :: DrainSelections r.2 n

/-- Derived predicate: the identity resolves (via FindButtonById) to a
widget whose visibility flag is set.  This is exactly the test the scan in
UpdateFocus applies to each candidate. -/
def buttonVisible (g : GuiMenuState) (id : ButtonId) : Bool :=
  match FindButtonById g id with
  | some b => b.is_visible
  | none => false

/-- Derived predicate: the identity resolves to a widget whose activation
flag is set. -/
def buttonActive (g : GuiMenuState) (id : ButtonId) : Bool :=
  match FindButtonById g id with
  | some b => b.is_active
  | none => false

/-- Closed form of the events AdvanceFrame produces: one touch-source
event per triggering widget, in collection order, identity per the
activation flag of the widget. -/
def triggeredEvents (trig : Nat → Bool) (buttons : List TouchscreenButton) :
    List MenuSelection :=
  (buttons.enum.filter (fun p => trig p.1)).map
    (fun p => ⟨if p.2.is_active then p.2.GetId else ButtonId.InvalidInput,
               ControllerId.kTouchController⟩)

/-- Button definition fixture with a given identity and up-neighbor list
and no texture or shader overrides. -/
def mkDef (id : ButtonId) (navUp : Option (List ButtonId)) : ButtonDef :=
  ⟨id, true, none, none, none, none, navUp, none, none, none⟩

/-- Widget fixture with the given identity, activation and visibility. -/
def mkButton (id : ButtonId) (active : Bool) (visible : Bool)
    (navUp : Option (List ButtonId)) : TouchscreenButton :=
  ⟨id, active, visible, false, false, mkDef id navUp, [], none, none, none, 480⟩

/-- Menu state fixture with no widgets, no images and an empty queue. -/
def gEmpty : GuiMenuState :=
  ⟨[], [], ButtonId.Undefined, [], none⟩

/-- Asset-resolution fixture on which every lookup fails. -/
def mmFail : MaterialManager :=
  ⟨fun _ => none, fun _ => none⟩

/-- Navigation fixture: widget 1 visible with up-neighbors [2], widget 2
present but invisible; focus on widget 1. -/
def gNav : GuiMenuState :=
  ⟨[mkButton (ButtonId.wid 1) true true (some [ButtonId.wid 2]),
    mkButton (ButtonId.wid 2) true false none],
   [], ButtonId.wid 1, [], none⟩

/-- Helper: one scan step of UpdateFocusLoop is the buttonVisible test on
the head candidate. -/
theorem updateFocusLoop_cons (g : GuiMenuState) (a : ButtonId) (t : List ButtonId) :
    UpdateFocusLoop g (a :: t) =
      if buttonVisible g a then SetFocus g a else UpdateFocusLoop g t := by
  unfold buttonVisible
  cases hfind : FindButtonById g a with
  | none => simp [UpdateFocusLoop, hfind]
  | some b =>
      by_cases hv : b.is_visible <;> simp [UpdateFocusLoop, hfind, hv]

/-- Helper: the scan of UpdateFocusLoop sets focus to the first candidate
passing the buttonVisible test and otherwise falls through to the
navigation-failure push. -/
theorem updateFocusLoop_spec (g : GuiMenuState) (l : List ButtonId) :
    (∀ d, l.find? (buttonVisible g) = some d →
       UpdateFocusLoop g l = { g with current_focus := d }) ∧
    (l.find? (buttonVisible g) = none →
       UpdateFocusLoop g l =
         pushSelection g ⟨ButtonId.InvalidInput, ControllerId.kTouchController⟩) := by
  induction l with
  | nil =>
      exact ⟨fun d h => by simp at h, fun _ => rfl⟩
  | cons a t ih =>
      rw [updateFocusLoop_cons]
      by_cases hv : buttonVisible g a = true
      · rw [if_pos hv, List.find?_cons_of_pos _ hv]
        refine ⟨fun d h => ?_, fun h => ?_⟩
        · cases h
          rfl
        · simp at h
      · rw [if_neg hv, List.find?_cons_of_neg _ hv]
        exact ih

/-- C1: on every UpdateFocus call, the first candidate of the destination
list that resolves to an existing, currently visible widget receives
focus, with no event enqueued and no later candidate taking effect; if
the list is absent or no candidate resolves to a visible widget, focus is
unchanged and exactly one (invalid-input, touch-source) event is appended;
consequently the post-call focus is unchanged or names a widget visible at
call time. -/
theorem updateFocus_first_visible (g : GuiMenuState) (dl : Option (List ButtonId)) :
    (∀ l, dl = some l →
      (∀ d, l.find? (buttonVisible g) = some d →
        UpdateFocus g dl = { g with current_focus := d }) ∧
      (l.find? (buttonVisible g) = none →
        UpdateFocus g dl =
          pushSelection g ⟨ButtonId.InvalidInput, ControllerId.kTouchController⟩)) ∧
    (dl = none →
      UpdateFocus g dl =
        pushSelection g ⟨ButtonId.InvalidInput, ControllerId.kTouchController⟩) ∧
    ((UpdateFocus g dl).current_focus = g.current_focus ∨
      buttonVisible g ((UpdateFocus g dl).current_focus) = true) := by
  refine ⟨fun l hl => ?_, fun hl => ?_, ?_⟩
  · subst hl
    exact updateFocusLoop_spec g l
  · subst hl
    rfl
  · cases dl with
    | none => exact Or.inl rfl
    | some l =>
        cases hf : l.find? (buttonVisible g) with
        | none =>
            rw [show UpdateFocus g (some l) = UpdateFocusLoop g l from rfl,
                (updateFocusLoop_spec g l).2 hf]
            exact Or.inl rfl
        | some d =>
            rw [show UpdateFocus g (some l) = UpdateFocusLoop g l from rfl,
                (updateFocusLoop_spec g l).1 d hf]
            exact Or.inr (List.find?_some hf)

/-- Witness for C1 on the spec scenario: from the gNav fixture, navigating
to the candidate list [2] fails (widget 2 is invisible) and appends the
failure event, while navigating to [1] focuses widget 1 silently. -/
theorem updateFocus_first_visible_witness :
    UpdateFocus gNav (some [ButtonId.wid 2]) =
      pushSelection gNav ⟨ButtonId.InvalidInput, ControllerId.kTouchController⟩ ∧
    UpdateFocus gNav (some [ButtonId.wid 1]) =
      { gNav with current_focus := ButtonId.wid 1 } :=
  ⟨((updateFocus_first_visible gNav (some [ButtonId.wid 2])).1
      [ButtonId.wid 2] rfl).2 (by decide),
   ((updateFocus_first_visible gNav (some [ButtonId.wid 1])).1
      [ButtonId.wid 1] rfl).1 (ButtonId.wid 1) (by decide)⟩

/-- C8: Setup with a null menu definition clears both collections, resets
focus to the Undefined sentinel, empties the pending queue and performs no
call on the asset-resolution collaborator. -/
theorem setup_null_resets (g : GuiMenuState) (matman : MaterialManager)
    (touch_screen_device : Bool) :
    Setup g none matman touch_screen_device =
      ({ g with button_list := [], image_list := [],
                current_focus := ButtonId.Undefined,
                unhandled_selections := [] }, []) :=
  rfl

/-- C7: for every non-null menu definition, Setup builds exactly one
widget per declared button and one image per declared static image, for
every asset-resolution collaborator, including ones on which resolutions
fail. -/
theorem setup_counts (g : GuiMenuState) (md : UiGroup)
    (matman : MaterialManager) (touch_screen_device : Bool)
    (h : 0 < md.cannonical_window_height) :
    (Setup g (some md) matman touch_screen_device).1.button_list.length =
      (md.button_list.getD []).length ∧
    (Setup g (some md) matman touch_screen_device).1.image_list.length =
      (md.static_image_list.getD []).length := by
  constructor <;> simp [Setup]

/-- Menu-definition fixture for C7: two buttons, one image, every
resolution failing through mmFail. -/
def mdTwoOne : UiGroup :=
  ⟨480, ButtonId.wid 1, "shd", "ishd",
   some [mkDef (ButtonId.wid 1) none, mkDef (ButtonId.wid 2) none],
   some [⟨ButtonId.wid 9, [⟨"tex", none⟩], none, false⟩]⟩

/-- Witness for C7: the fixture definition with two buttons and one image,
set up against the always-failing resolver, yields collections of sizes 2
and 1. -/
theorem setup_counts_witness :
    0 < mdTwoOne.cannonical_window_height ∧
    ((Setup gEmpty (some mdTwoOne) mmFail false).1.button_list.length =
       (mdTwoOne.button_list.getD []).length ∧
     (Setup gEmpty (some mdTwoOne) mmFail false).1.image_list.length =
       (mdTwoOne.static_image_list.getD []).length) :=
  ⟨by decide, setup_counts gEmpty mdTwoOne mmFail false (by decide)⟩

/-- C9: GetRecentSelection pops and returns the front event of a
non-empty queue, and on an empty queue returns the
(Undefined, kUndefinedController) sentinel while leaving the state
exactly as it was. -/
theorem getRecentSelection_spec (g : GuiMenuState) :
    (∀ e rest, g.unhandled_selections = e :: rest →
      GetRecentSelection g = (e, { g with unhandled_selections := rest })) ∧
    (g.unhandled_selections = [] →
      GetRecentSelection g =
        (⟨ButtonId.Undefined, ControllerId.kUndefinedController⟩, g)) := by
  constructor
  · intro e rest h
    simp [GetRecentSelection, h]
  · intro h
    simp [GetRecentSelection, h]

/-- Witness for C9: popping a one-element queue returns that element and
empties the queue; popping the emptied state returns the sentinel and the
state unchanged. -/
theorem getRecentSelection_spec_witness :
    GetRecentSelection
        { gEmpty with unhandled_selections :=
            [⟨ButtonId.wid 1, ControllerId.controller 0⟩] } =
      (⟨ButtonId.wid 1, ControllerId.controller 0⟩,
       { gEmpty with unhandled_selections := [] }) ∧
    GetRecentSelection gEmpty =
      (⟨ButtonId.Undefined, ControllerId.kUndefinedController⟩, gEmpty) :=
  ⟨(getRecentSelection_spec
      { gEmpty with unhandled_selections :=
          [⟨ButtonId.wid 1, ControllerId.controller 0⟩] }).1
      ⟨ButtonId.wid 1, ControllerId.controller 0⟩ [] rfl,
   (getRecentSelection_spec gEmpty).2 rfl⟩

/-- C10: SetFocus stores any identity unvalidated, GetFocus reads exactly
that identity back, and no other component of the state changes. -/
theorem setFocus_stores_any_identity (g : GuiMenuState) (x : ButtonId) :
    GetFocus (SetFocus g x) = x ∧
    (SetFocus g x).button_list = g.button_list ∧
    (SetFocus g x).image_list = g.image_list ∧
    (SetFocus g x).unhandled_selections = g.unhandled_selections :=
  ⟨rfl, rfl, rfl, rfl⟩

/-- Helper: the events the per-button loop pushes, starting at index i,
are the touch-source events of the triggering widgets in collection
order. -/
theorem advanceFrameLoop_events (focus : ButtonId) (trig : Nat → Bool) :
    ∀ (bs : List TouchscreenButton) (i : Nat),
      (AdvanceFrameLoop focus trig i bs).2 =
        ((bs.enumFrom i).filter (fun p => trig p.1)).map
          (fun p => ⟨if p.2.is_active then p.2.GetId else ButtonId.InvalidInput,
                     ControllerId.kTouchController⟩) := by
  intro bs
  induction bs with
  | nil => intro i; rfl
  | cons b t ih =>
      intro i
      by_cases ht : trig i <;>
        simp [AdvanceFrameLoop, List.enumFrom, ht, ih, advanceButton,
              TouchscreenButton.IsTriggered, TouchscreenButton.GetId]

/-- Helper: repeated GetRecentSelection first returns the queued events in
order, then the sentinel for every extra drain. -/
theorem drainSelections_eq (n : Nat) :
    ∀ (g : GuiMenuState), g.unhandled_selections.length ≤ n →
      DrainSelections g n =
        g.unhandled_selections ++
          List.replicate (n - g.unhandled_selections.length)
            ⟨ButtonId.Undefined, ControllerId.kUndefinedController⟩ := by
  induction n with
  | zero =>
      intro g h
      have hq : g.unhandled_selections = [] :=
        List.eq_nil_of_length_eq_zero (Nat.le_zero.mp h)
      simp [DrainSelections, hq]
  | succ n ih =>
      intro g h
      cases hq : g.unhandled_selections with
      | nil =>
          have hrec := ih g (by simp [hq])
          simp [hq] at hrec
          simp [DrainSelections, GetRecentSelection, hq, hrec,
                List.replicate_succ]
      | cons e rest =>
          have hlen : rest.length ≤ n := by
            have := h
            rw [hq] at this
            simpa using this
          have hrec := ih { g with unhandled_selections := rest } hlen
          simp [DrainSelections, GetRecentSelection, hq, hrec]

/-- C2: AdvanceFrame unconditionally drops whatever was queued and leaves
the queue holding exactly the events generated during the call; draining
n times, for n at least the number of triggering widgets, returns those
events in widget collection order followed by sentinel events for the
remaining drains. -/
theorem advanceFrame_fresh_queue (g : GuiMenuState) (trig : Nat → Bool)
    (n : Nat) (h : (triggeredEvents trig g.button_list).length ≤ n) :
    (AdvanceFrame g trig).unhandled_selections =
      triggeredEvents trig g.button_list ∧
    DrainSelections (AdvanceFrame g trig) n =
      triggeredEvents trig g.button_list ++
        List.replicate (n - (triggeredEvents trig g.button_list).length)
          ⟨ButtonId.Undefined, ControllerId.kUndefinedController⟩ := by
  have hq : (AdvanceFrame g trig).unhandled_selections =
      triggeredEvents trig g.button_list := by
    simp [AdvanceFrame, ClearRecentSelections, advanceFrameLoop_events,
          triggeredEvents, List.enum]
  refine ⟨hq, ?_⟩
  rw [drainSelections_eq n (AdvanceFrame g trig) (by rw [hq]; exact h), hq]

/-- Fixture for C2: stale event in the queue, one active and one inactive
widget, both triggering this frame. -/
def gFrame : GuiMenuState :=
  ⟨[mkButton (ButtonId.wid 1) true true none,
    mkButton (ButtonId.wid 2) false true none],
   [], ButtonId.wid 1,
   [⟨ButtonId.Cancel, ControllerId.kTouchController⟩], none⟩

/-- Trigger oracle firing on every widget. -/
def trigAll : Nat → Bool := fun _ => true

/-- Witness for C2: on the gFrame fixture the stale event is dropped, the
two trigger events remain, and draining three times yields them followed
by one sentinel. -/
theorem advanceFrame_fresh_queue_witness :
    (triggeredEvents trigAll gFrame.button_list).length ≤ 3 ∧
    ((AdvanceFrame gFrame trigAll).unhandled_selections =
       triggeredEvents trigAll gFrame.button_list ∧
     DrainSelections (AdvanceFrame gFrame trigAll) 3 =
       triggeredEvents trigAll gFrame.button_list ++
         List.replicate (3 - (triggeredEvents trigAll gFrame.button_list).length)
           ⟨ButtonId.Undefined, ControllerId.kUndefinedController⟩) :=
  ⟨by decide, advanceFrame_fresh_queue gFrame trigAll 3 (by decide)⟩

/-- C3: after AdvanceFrame the queue holds exactly one touch-source event
per widget that reported a trigger, in collection order, with the widget
identity when the widget is active and the invalid-input sentinel when it
is not; widgets that did not trigger contribute nothing. -/
theorem advanceFrame_trigger_events (g : GuiMenuState) (trig : Nat → Bool) :
    (AdvanceFrame g trig).unhandled_selections =
      (g.button_list.enum.filter (fun p => trig p.1)).map
        (fun p => ⟨if p.2.is_active then p.2.GetId else ButtonId.InvalidInput,
                   ControllerId.kTouchController⟩) := by
  simp [AdvanceFrame, ClearRecentSelections, advanceFrameLoop_events,
        List.enum]

/-- Helper: the scan loop leaves the collections alone and either changes
only the focus silently or appends exactly the failure event with focus
unchanged. -/
theorem updateFocusLoop_shape (g : GuiMenuState) (l : List ButtonId) :
    (UpdateFocusLoop g l).button_list = g.button_list ∧
    (UpdateFocusLoop g l).image_list = g.image_list ∧
    ((UpdateFocusLoop g l).unhandled_selections = g.unhandled_selections ∨
     ((UpdateFocusLoop g l).unhandled_selections =
        g.unhandled_selections ++
          [⟨ButtonId.InvalidInput, ControllerId.kTouchController⟩] ∧
      (UpdateFocusLoop g l).current_focus = g.current_focus)) := by
  induction l with
  | nil => exact ⟨rfl, rfl, Or.inr ⟨rfl, rfl⟩⟩
  | cons a t ih =>
      rw [updateFocusLoop_cons]
      by_cases hv : buttonVisible g a = true
      · rw [if_pos hv]
        exact ⟨rfl, rfl, Or.inl rfl⟩
      · rw [if_neg hv]
        exact ih

/-- Helper: UpdateFocus leaves the collections alone and either changes
only the focus silently or appends exactly the failure event with focus
unchanged. -/
theorem updateFocus_shape (g : GuiMenuState) (dl : Option (List ButtonId)) :
    (UpdateFocus g dl).button_list = g.button_list ∧
    (UpdateFocus g dl).image_list = g.image_list ∧
    ((UpdateFocus g dl).unhandled_selections = g.unhandled_selections ∨
     ((UpdateFocus g dl).unhandled_selections =
        g.unhandled_selections ++
          [⟨ButtonId.InvalidInput, ControllerId.kTouchController⟩] ∧
      (UpdateFocus g dl).current_focus = g.current_focus)) := by
  cases dl with
  | none => exact ⟨rfl, rfl, Or.inr ⟨rfl, rfl⟩⟩
  | some l => exact updateFocusLoop_shape g l

/-- Helper: one guarded direction step of HandleControllerInput keeps the
collections and appends zero or one navigation-failure events. -/
theorem navStep_facts (g : GuiMenuState) (bit : Bool)
    (dl : Option (List ButtonId)) :
    ∃ j, j ≤ 1 ∧
      (if bit then UpdateFocus g dl else g).button_list = g.button_list ∧
      (if bit then UpdateFocus g dl else g).image_list = g.image_list ∧
      (if bit then UpdateFocus g dl else g).unhandled_selections =
        g.unhandled_selections ++
          List.replicate j ⟨ButtonId.InvalidInput, ControllerId.kTouchController⟩ := by
  cases bit with
  | false => exact ⟨0, by omega, by simp, by simp, by simp⟩
  | true =>
      rcases updateFocus_shape g dl with ⟨h1, h2, h3 | ⟨h3, _⟩⟩
      · exact ⟨0, by omega, by simpa using h1, by simpa using h2,
               by simp [h3]⟩
      · exact ⟨1, by omega, by simpa using h1, by simpa using h2,
               by simp [h3]⟩

/-- C4 (amended): with focus resolving to a widget b, the queue grows by
the events of the asserted bits in bit-check order: first k navigation
failure events with k at most 4, then the select event, then the cancel
event; the select event carries the post-navigation focus identity when
the entry-focus widget b is active and the invalid-input sentinel when it
is not; when no direction bit is asserted this reduces to the claim as
written, so select and cancel together on a focused active widget append
exactly (focus, controller) then (cancel, controller). -/
theorem handleControllerInput_bit_order (g : GuiMenuState)
    (inp : LogicalInputs) (cid : ControllerId) (b : TouchscreenButton)
    (hb : FindButtonById g g.current_focus = some b) :
    (∃ k, k ≤ 4 ∧
      (HandleControllerInput g inp cid).button_list = g.button_list ∧
      (HandleControllerInput g inp cid).unhandled_selections =
        g.unhandled_selections
          ++ List.replicate k ⟨ButtonId.InvalidInput, ControllerId.kTouchController⟩
          ++ (if inp.select then
                [⟨if b.is_active then (HandleControllerInput g inp cid).current_focus
                  else ButtonId.InvalidInput, cid⟩]
              else [])
          ++ (if inp.cancel then [⟨ButtonId.Cancel, cid⟩] else [])) ∧
    (inp.up = false → inp.down = false → inp.left = false → inp.right = false →
      (HandleControllerInput g inp cid).unhandled_selections =
        g.unhandled_selections
          ++ (if inp.select then
                [⟨if b.is_active then g.current_focus else ButtonId.InvalidInput, cid⟩]
              else [])
          ++ (if inp.cancel then [⟨ButtonId.Cancel, cid⟩] else [])) := by
  set G1 := if inp.up then UpdateFocus g b.button_def.nav_up else g with hG1
  set G2 := if inp.down then UpdateFocus G1 b.button_def.nav_down else G1 with hG2
  set G3 := if inp.left then UpdateFocus G2 b.button_def.nav_left else G2 with hG3
  set G4 := if inp.right then UpdateFocus G3 b.button_def.nav_right else G3 with hG4
  set G5 := if inp.select then
      pushSelection G4 ⟨if b.is_active then G4.current_focus
                        else ButtonId.InvalidInput, cid⟩
    else G4 with hG5
  set G6 := if inp.cancel then pushSelection G5 ⟨ButtonId.Cancel, cid⟩ else G5
    with hG6
  have hH : HandleControllerInput g inp cid = G6 := by
    simp only [HandleControllerInput, hb, hG6, hG5, hG4, hG3, hG2, hG1]
  obtain ⟨j1, hj1, hb1, _, hq1⟩ := navStep_facts g inp.up b.button_def.nav_up
  obtain ⟨j2, hj2, hb2, _, hq2⟩ := navStep_facts G1 inp.down b.button_def.nav_down
  obtain ⟨j3, hj3, hb3, _, hq3⟩ := navStep_facts G2 inp.left b.button_def.nav_left
  obtain ⟨j4, hj4, hb4, _, hq4⟩ := navStep_facts G3 inp.right b.button_def.nav_right
  rw [← hG1] at hb1 hq1
  rw [← hG2] at hb2 hq2
  rw [← hG3] at hb3 hq3
  rw [← hG4] at hb4 hq4
  have hbl : G4.button_list = g.button_list := by
    rw [hb4, hb3, hb2, hb1]
  have hq : G4.unhandled_selections =
      g.unhandled_selections ++
        List.replicate (j1 + j2 + j3 + j4)
          ⟨ButtonId.InvalidInput, ControllerId.kTouchController⟩ := by
    rw [hq4, hq3, hq2, hq1]
    simp only [List.append_assoc, ← List.replicate_add, Nat.add_assoc]
  have hf6 : G6.current_focus = G4.current_focus := by
    rw [hG6, hG5]
    cases inp.cancel <;> cases inp.select <;> simp [pushSelection]
  have hb6 : G6.button_list = G4.button_list := by
    rw [hG6, hG5]
    cases inp.cancel <;> cases inp.select <;> simp [pushSelection]
  have hq6 : G6.unhandled_selections =
      G4.unhandled_selections
        ++ (if inp.select then
              [⟨if b.is_active then G4.current_focus
                else ButtonId.InvalidInput, cid⟩]
            else [])
        ++ (if inp.cancel then [⟨ButtonId.Cancel, cid⟩] else []) := by
    rw [hG6, hG5]
    cases inp.cancel <;> cases inp.select <;> simp [pushSelection]
  constructor
  · refine ⟨j1 + j2 + j3 + j4, by omega, ?_, ?_⟩
    · rw [hH, hb6, hbl]
    · rw [hH, hq6, hq, hf6]
  · intro hu hd hl hr
    have hG4g : G4 = g := by
      rw [hG4, hr, hG3, hl, hG2, hd, hG1, hu]
      simp
    rw [hH, hq6, hG4g]

/-- Fixture for C4: widget 1 active with up-neighbors [2], widget 2
present, visible and inactive; focus on widget 1. -/
def gStale : GuiMenuState :=
  ⟨[mkButton (ButtonId.wid 1) true true (some [ButtonId.wid 2]),
    mkButton (ButtonId.wid 2) false true none],
   [], ButtonId.wid 1, [], none⟩

/-- Input fixture asserting up and select together. -/
def inpUpSelect : LogicalInputs :=
  ⟨true, false, false, false, true, false⟩

/-- Counterexample for C4 as stated: with up and select asserted in one
call from gStale, navigation moves focus to widget 2 and the select event
then carries identity 2 even though widget 2 is inactive and the widget
holding focus at entry was widget 1 — so the event matches neither the
entry-focus identity nor the invalid-input sentinel the claim would
require for an inactive focused widget. -/
theorem handleControllerInput_select_stale_counterexample :
    gStale.current_focus = ButtonId.wid 1 ∧
    buttonActive gStale (ButtonId.wid 1) = true ∧
    buttonActive gStale (ButtonId.wid 2) = false ∧
    (HandleControllerInput gStale inpUpSelect
        (ControllerId.controller 7)).current_focus = ButtonId.wid 2 ∧
    (HandleControllerInput gStale inpUpSelect
        (ControllerId.controller 7)).unhandled_selections =
      [⟨ButtonId.wid 2, ControllerId.controller 7⟩] ∧
    (⟨ButtonId.wid 2, ControllerId.controller 7⟩ : MenuSelection) ≠
      ⟨ButtonId.wid 1, ControllerId.controller 7⟩ ∧
    (⟨ButtonId.wid 2, ControllerId.controller 7⟩ : MenuSelection) ≠
      ⟨ButtonId.InvalidInput, ControllerId.controller 7⟩ := by
  decide

/-- Widget fixture for the select-and-cancel scenario: identity 5, active
and visible. -/
def bE : TouchscreenButton :=
  mkButton (ButtonId.wid 5) true true none

/-- Menu state focused on bE with an empty queue. -/
def gSel : GuiMenuState :=
  ⟨[bE], [], ButtonId.wid 5, [], none⟩

/-- Input fixture asserting select and cancel together. -/
def inpSelectCancel : LogicalInputs :=
  ⟨false, false, false, false, true, true⟩

/-- Witness for C4 (amended) on the spec scenario: select and cancel
asserted together on the focused active widget 5 append exactly
(5, controller) then (cancel, controller). -/
theorem handleControllerInput_bit_order_witness :
    (HandleControllerInput gSel inpSelectCancel
        (ControllerId.controller 3)).unhandled_selections =
      [⟨ButtonId.wid 5, ControllerId.controller 3⟩,
       ⟨ButtonId.Cancel, ControllerId.controller 3⟩] :=
  ((handleControllerInput_bit_order gSel inpSelectCancel
      (ControllerId.controller 3) bE (by decide)).2 rfl rfl rfl rfl).trans
    (by decide)

/-- Widget fixture for C5: identity 3, active but invisible. -/
def bHidden : TouchscreenButton :=
  mkButton (ButtonId.wid 3) true false none

/-- Menu state focused on the invisible widget 3. -/
def gHidden : GuiMenuState :=
  ⟨[bHidden], [], ButtonId.wid 3, [], none⟩

/-- Input fixture asserting only select. -/
def inpSelectOnly : LogicalInputs :=
  ⟨false, false, false, false, true, false⟩

/-- Counterexample for C5 as stated: the focus of gHidden resolves to a
widget that exists but is invisible, yet HandleControllerInput is not a
no-op there — it enqueues the select event for the invisible widget. -/
theorem handleControllerInput_invisible_focus_counterexample :
    FindButtonById gHidden gHidden.current_focus = some bHidden ∧
    bHidden.is_visible = false ∧
    (HandleControllerInput gHidden inpSelectOnly
        (ControllerId.controller 0)).unhandled_selections =
      [⟨ButtonId.wid 3, ControllerId.controller 0⟩] ∧
    HandleControllerInput gHidden inpSelectOnly (ControllerId.controller 0) ≠
      gHidden := by
  decide

/-- C5 (amended): HandleControllerInput is a silent no-op — the whole
state is returned unchanged and no event is enqueued — whenever the
current focus resolves to no existing widget, for every input and
controller identity.  (Existence is the only test: an existing invisible
focused widget is still processed.) -/
theorem handleControllerInput_missing_focus_noop (g : GuiMenuState)
    (inp : LogicalInputs) (cid : ControllerId)
    (h : FindButtonById g g.current_focus = none) :
    HandleControllerInput g inp cid = g := by
  simp [HandleControllerInput, h]

/-- Input fixture asserting every bit. -/
def inpAllBits : LogicalInputs :=
  ⟨true, true, true, true, true, true⟩

/-- Witness for C5 (amended): with no widgets and focus on the nonexistent
identity 9, every bit asserted at once changes nothing. -/
theorem handleControllerInput_missing_focus_noop_witness :
    HandleControllerInput { gEmpty with current_focus := ButtonId.wid 9 }
      inpAllBits (ControllerId.controller 1) =
      { gEmpty with current_focus := ButtonId.wid 9 } :=
  handleControllerInput_missing_focus_noop
    { gEmpty with current_focus := ButtonId.wid 9 }
    inpAllBits (ControllerId.controller 1) (by decide)

/-- Counterexample for C6 as stated: immediately after Setup of the
two-button fixture, focus is on widget 1 yet the widget with identity 2
also carries a true highlight flag, so highlight is not (identity equals
focus) at that observable point. -/
theorem setup_all_highlighted_counterexample :
    (Setup gEmpty (some mdTwoOne) mmFail false).1.current_focus =
      ButtonId.wid 1 ∧
    ((Setup gEmpty (some mdTwoOne) mmFail false).1.button_list[1]?.map
        TouchscreenButton.GetId) = some (ButtonId.wid 2) ∧
    ((Setup gEmpty (some mdTwoOne) mmFail false).1.button_list[1]?.map
        TouchscreenButton.is_highlighted) = some true ∧
    ButtonId.wid 2 ≠ ButtonId.wid 1 := by
  decide

/-- Helper: every widget produced by the per-frame loop carries the
highlight flag recomputed as (focus equals identity). -/
theorem advanceFrameLoop_highlight (focus : ButtonId) (trig : Nat → Bool) :
    ∀ (bs : List TouchscreenButton) (i : Nat) (b : TouchscreenButton),
      b ∈ (AdvanceFrameLoop focus trig i bs).1 →
      b.is_highlighted = (focus == b.GetId) := by
  intro bs
  induction bs with
  | nil =>
      intro i b h
      simp [AdvanceFrameLoop] at h
  | cons c t ih =>
      intro i b h
      simp only [AdvanceFrameLoop, List.mem_cons] at h
      rcases h with h | h
      · subst h
        rfl
      · exact ih (i + 1) b h

/-- C6 (amended): after every AdvanceFrame each widget holds highlight
exactly when its identity equals the current focus (highlight is
recomputed from focus, never independent ground truth); immediately after
a non-null Setup, however, every widget carries a true highlight flag
regardless of focus. -/
theorem highlight_flags (g : GuiMenuState) (trig : Nat → Bool) (md : UiGroup)
    (matman : MaterialManager) (touch_screen_device : Bool) :
    (∀ b ∈ (AdvanceFrame g trig).button_list,
       b.is_highlighted = (g.current_focus == b.GetId)) ∧
    (∀ b ∈ (Setup g (some md) matman touch_screen_device).1.button_list,
       b.is_highlighted = true) := by
  constructor
  · intro b hb
    have hb' : b ∈ (AdvanceFrameLoop g.current_focus trig 0 g.button_list).1 := by
      simpa [AdvanceFrame, ClearRecentSelections] using hb
    exact advanceFrameLoop_highlight g.current_focus trig g.button_list 0 b hb'
  · intro b hb
    simp only [Setup, ClearRecentSelections, List.map_map, List.mem_map,
               Function.comp] at hb
    obtain ⟨bd, _, rfl⟩ := hb
    rfl

/-- Widget equal to bE after one frame advance with no trigger: highlight
derived true since focus is on identity 5. -/
def bEAdv : TouchscreenButton :=
  { bE with is_highlighted := true }

/-- Trigger oracle firing on no widget. -/
def trigNone : Nat → Bool := fun _ => false

/-- Widget as constructed by Setup from the first button of mdTwoOne with
every resolution failing. -/
def bSet : TouchscreenButton :=
  ⟨ButtonId.wid 1, true, true, true, false, mkDef (ButtonId.wid 1) none,
   [], none, none, none, 480⟩

/-- Witness for C6 (amended): after AdvanceFrame on gSel the advanced
widget is highlighted and its identity equals the focus; after Setup of
mdTwoOne the first constructed widget carries a true highlight flag. -/
theorem highlight_flags_witness :
    (bEAdv ∈ (AdvanceFrame gSel trigNone).button_list ∧
     bEAdv.is_highlighted = (gSel.current_focus == bEAdv.GetId)) ∧
    (bSet ∈ (Setup gEmpty (some mdTwoOne) mmFail false).1.button_list ∧
     bSet.is_highlighted = true) :=
  ⟨⟨by decide,
    (highlight_flags gSel trigNone mdTwoOne mmFail false).1 bEAdv (by decide)⟩,
   ⟨by decide,
    (highlight_flags gEmpty trigNone mdTwoOne mmFail false).2 bSet (by decide)⟩⟩

end GuiMenuModel
